import Mathlib

/-!
Shallow embedding of `src/openl2m.py`, the OpenL2M REST API client
(classes `Server` and `Device`), together with theorems settling the
specification claims about it.

Modelling conventions:
* The HTTP transport (`requests.get` / `requests.post`) is an external
  collaborator.  Its behaviour on the single request issued by
  `Server.execute` is supplied as a `TransportOutcome` argument: either
  a raised exception (carrying its stringified form) or a completed
  `Response`.
* `print` output is collected as a list of emitted lines.
* Python's `self.response` field starts as `False` and later holds a
  response object; it is modelled as `Option Response` with `none` for
  the `False` state.  Likewise the `data=False` default parameter of
  `execute` is `Option PostData` with `none` for the absent argument.
* Python truthiness of the `data` parameter (`if data:`) is modelled by
  `dataTruthy`: `False` is falsy, a dict is truthy iff non-empty.
* The dynamically-created `self.error_string` attribute (set by two of
  the `Device` write methods, never read) is modelled as an
  `Option String` field that is `none` until first assigned.
* `requests.codes.ok` is the numeric HTTP status 200.
-/

namespace OpenL2M

/-- A JSON-able value as stored in the POST-data dictionaries of the
client (`"on"`, a boolean PoE state, an integer VLAN id, ...). -/
inductive JVal where
  | str (s : String)
  | bool (b : Bool)
  | int (n : Int)
  deriving DecidableEq, Repr

/-- A POST body: a dictionary of field name to value. -/
abbrev PostData := List (String × JVal)

/-- HTTP method of a request issued by the client. -/
inductive Method where
  | GET
  | POST
  deriving DecidableEq, Repr

/-- A completed HTTP response, as the `requests` transport returns it:
numeric status code and raw body (`response.content`, modelled as a
string). -/
structure Response where
  status_code : Nat
  content : String
  deriving DecidableEq, Repr

/-- The transport's behaviour on the one request `execute` issues:
either an exception was raised (with its stringified message) or a
response came back. -/
inductive TransportOutcome where
  | exn (msg : String)
  | resp (r : Response)
  deriving DecidableEq, Repr

/-- One HTTP request handed to the transport: method, full URL, optional
JSON body, headers, and the TLS-verification flag passed along. -/
structure Request where
  method : Method
  url : String
  body : Option PostData
  headers : List (String × String)
  verify : Bool
  deriving DecidableEq, Repr

/-- The `requests` library's `codes.ok`, i.e. the numeric status 200. -/
def requests_codes_ok : Nat := 200

/-- The mutable state of a `Server` instance (also used for `Device`,
which subclasses `Server` adding no fields of its own; `error_string`
is the dynamically created attribute, `none` while unset). -/
structure Server where
  url : String
  token : String
  headers : List (String × String)
  status : Int
  error : String
  response : Option Response
  verbose : Int
  verify : Bool
  error_string : Option String
  deriving DecidableEq, Repr

/-- `Server.__init__(url, token)`. -/
def Server.init (url : String) (token : String) : Server :=
  { url := url
    token := token
    headers := [("Authorization", "Token " ++ token),
                ("Content-Type", "application/json")]
    status := 0
    error := ""
    response := none
    verbose := 0
    verify := true
    error_string := none }

/-- `Server.set_verify`. -/
def Server.set_verify (s : Server) (verify : Bool) : Server :=
  { s with verify := verify }

/-- `Server.set_verbose`. -/
def Server.set_verbose (s : Server) (verbose : Int) : Server :=
  { s with verbose := verbose }

/-- `Server.debug(text, level=1)`: the lines printed (empty when the
verbosity is below `level`). -/
def Server.debug (s : Server) (text : String) (level : Int) : List String :=
  if s.verbose ≥ level then ["DEBUG" ++ toString level ++ ": " ++ text] else []

/-- Python truthiness of the `data` parameter of `execute`
(`data=False` default): `False` is falsy, a dict is truthy iff
non-empty. -/
def dataTruthy : Option PostData → Bool
  | none => false
  | some d => !d.isEmpty

/-- Result of one call to `execute` (or a wrapper around it): the
returned boolean, the updated instance state, the requests handed to
the transport (in order), and the printed lines (in order). -/
structure ExecResult where
  ret : Bool
  state : Server
  requests : List Request
  output : List String
  deriving Repr

/-- Prepend debug output of a wrapper method to an `ExecResult`. -/
def withOut (out : List String) (r : ExecResult) : ExecResult :=
  { r with output := out ++ r.output }

/-- `Server.execute(endpoint, data=False)` under transport behaviour
`outcome`. -/
def Server.execute (s : Server) (endpoint : String) (data : Option PostData)
    (outcome : TransportOutcome) : ExecResult :=
  let out0 := s.debug ("execute(endpoint=" ++ endpoint ++ ")") 1
  let s1 : Server := { s with status := 0, error := "", response := none }
  let url := s.url ++ endpoint
  let req : Request :=
    if dataTruthy data then
      { method := Method.POST, url := url, body := data,
        headers := s.headers, verify := s.verify }
    else
      { method := Method.GET, url := url, body := none,
        headers := s.headers, verify := s.verify }
  let outM :=
    if dataTruthy data then s.debug ("  POST: " ++ url) 1
    else s.debug ("  GET: " ++ url) 1
  match outcome with
  | TransportOutcome.exn e =>
      { ret := false
        state := { s1 with status := -1, error := e }
        requests := [req]
        output := out0 ++ outM ++ s.debug ("  ERROR: " ++ e) 1 }
  | TransportOutcome.resp r =>
      { ret := r.status_code == requests_codes_ok
        state := { s1 with response := some r, status := (r.status_code : Int) }
        requests := [req]
        output := out0 ++ outM
          ++ s.debug ("  Response code " ++ toString r.status_code) 1
          ++ s.debug ("  Body:\n" ++ r.content ++ "\n") 2 }

/-- `Server.devices()`. -/
def Server.devices (s : Server) (outcome : TransportOutcome) : ExecResult :=
  withOut (s.debug "devices()" 1) (s.execute "api/switches/" none outcome)

/-- `Server.menu()`. -/
def Server.menu (s : Server) (outcome : TransportOutcome) : ExecResult :=
  s.devices outcome

/-- `Server.switches()`. -/
def Server.switches (s : Server) (outcome : TransportOutcome) : ExecResult :=
  s.devices outcome

/-- `Server.stats()`. -/
def Server.stats (s : Server) (outcome : TransportOutcome) : ExecResult :=
  withOut (s.debug "stats()" 1) (s.execute "api/stats/" none outcome)

/-- `Server.environment()`. -/
def Server.environment (s : Server) (outcome : TransportOutcome) : ExecResult :=
  withOut (s.debug "environment()" 1) (s.execute "api/environment/" none outcome)

/-- `Device` subclasses `Server` and adds no fields. -/
abbrev Device := Server

/-- `Device.__init__(device_url, token)`: delegates to
`Server.__init__(url=device_url, token=token)`. -/
def Device.init (device_url : String) (token : String) : Device :=
  Server.init device_url token

/-- `Server.device(device_url)`: a pure factory returning the new
`Device` and the debug lines printed. -/
def Server.device (s : Server) (device_url : String) : Device × List String :=
  (Device.init device_url s.token,
   s.debug ("device(device_url=" ++ device_url ++ ")") 1)

/-- Python rendering of a boolean in an f-string. -/
def pyBool : Bool → String
  | true => "True"
  | false => "False"

/-- Python rendering of an `int` in an f-string. -/
def pyInt (n : Int) : String := toString n

/-- `Device.get(view="")`. -/
def Device.get (d : Device) (view : String) (outcome : TransportOutcome) :
    ExecResult :=
  let out := Server.debug d ("read_switch(view=" ++ view ++ ")") 1
  let endpoint := if view == "details" then "details/" else ""
  withOut out (Server.execute d endpoint none outcome)

/-- `Device.set_interface_state(interface_id, state)`. -/
def Device.set_interface_state (d : Device) (interface_id : String)
    (state : Bool) (outcome : TransportOutcome) : ExecResult :=
  let out := Server.debug d
    ("set_interface_state(interface_id=" ++ interface_id
      ++ ", state=" ++ pyBool state ++ ")") 1
  let d1 : Device := { d with error_string := some "" }
  let data : PostData :=
    if state then [("state", JVal.str "on")] else [("state", JVal.str "off")]
  let endpoint := "interface/" ++ interface_id ++ "/state/"
  withOut out (Server.execute d1 endpoint (some data) outcome)

/-- `Device.set_interface_poe_state(interface_id, poe_state)`. -/
def Device.set_interface_poe_state (d : Device) (interface_id : String)
    (poe_state : Bool) (outcome : TransportOutcome) : ExecResult :=
  let out := Server.debug d
    ("set_interface_poe_status(interface_id=" ++ interface_id
      ++ ", poe_state=" ++ pyBool poe_state ++ ")") 1
  let d1 : Device := { d with error_string := some "" }
  let data : PostData := [("poe_state", JVal.bool poe_state)]
  let endpoint := "interface/" ++ interface_id ++ "/poe_state/"
  withOut out (Server.execute d1 endpoint (some data) outcome)

/-- `Device.set_interface_description(interface_id, description)`. -/
def Device.set_interface_description (d : Device) (interface_id : String)
    (description : String) (outcome : TransportOutcome) : ExecResult :=
  let out := Server.debug d
    ("set_interface_description(interface_id=" ++ interface_id
      ++ ", description=" ++ description ++ ")") 1
  let data : PostData := [("description", JVal.str description)]
  let endpoint := "interface/" ++ interface_id ++ "/description/"
  withOut out (Server.execute d endpoint (some data) outcome)

/-- `Device.set_interface_vlan(interface_id, vlan_id)`. -/
def Device.set_interface_vlan (d : Device) (interface_id : String)
    (vlan_id : Int) (outcome : TransportOutcome) : ExecResult :=
  let out := Server.debug d
    ("set_interface_vlan(interface_id=" ++ interface_id
      ++ ", vlan_id=" ++ pyInt vlan_id ++ ")") 1
  let data : PostData := [("vlan", JVal.int vlan_id)]
  let endpoint := "interface/" ++ interface_id ++ "/vlan/"
  withOut out (Server.execute d endpoint (some data) outcome)

end OpenL2M

/-! ## Outcome-state taxonomy

The following predicates formalise the spec's taxonomy of the state a
session is left in after a call to `execute` (§3 invariant).  They are
used only in theorem statements; `transportFailureClaimed` follows the
spec's wording ("non-empty error"), `transportFailureState` the
behaviour of the code (the error field equals the stringified
exception, which may be empty). -/

namespace OpenL2M

/-- The claimed "transport failure" outcome state: sentinel status
`-1`, non-empty error message, no response stored. -/
def transportFailureClaimed (st : Server) : Prop :=
  st.status = -1 ∧ st.error ≠ "" ∧ st.response = none

/-- The "transport failure" outcome state as the code produces it:
sentinel status `-1` and no response stored (error may be empty). -/
def transportFailureState (st : Server) : Prop :=
  st.status = -1 ∧ st.response = none

/-- The "HTTP error status" outcome state: empty error, a stored
response whose status code is outside the 200–299 success range. -/
def httpErrorState (st : Server) : Prop :=
  st.error = "" ∧ ∃ r, st.response = some r ∧ st.status = (r.status_code : Int)
    ∧ ¬(200 ≤ r.status_code ∧ r.status_code ≤ 299)

/-- The "HTTP success" outcome state: empty error, a stored response
whose status code is in the 200–299 success range. -/
def httpSuccessState (st : Server) : Prop :=
  st.error = "" ∧ ∃ r, st.response = some r ∧ st.status = (r.status_code : Int)
    ∧ (200 ≤ r.status_code ∧ r.status_code ≤ 299)

/-! ## Claim theorems -/

/-- Claim C1, counterexample: a completed exchange with HTTP status 201
— inside the claimed 200–299 success range — makes `execute` return
`false`, because the code compares the status against
`requests.codes.ok`, i.e. exactly 200. -/
theorem execute_status_201_not_success :
    ((Server.init "u" "t").execute "e" none
        (TransportOutcome.resp ⟨201, ""⟩)).ret = false
    ∧ (200 ≤ 201 ∧ 201 ≤ 299) := by decide

/-- Claim C1, amended: `execute` returns `true` iff the request
completed and the remote peer answered with HTTP status exactly 200
(`requests.codes.ok`); it returns `false` on a transport exception and
on every other status code, 2xx codes other than 200 included. -/
theorem execute_true_iff_status_exactly_200 (s : Server) (endpoint : String)
    (data : Option PostData) (outcome : TransportOutcome) :
    (s.execute endpoint data outcome).ret = true ↔
      ∃ r, outcome = TransportOutcome.resp r ∧ r.status_code = 200 := by
  cases outcome with
  | exn e => simp [Server.execute]
  | resp r => simp [Server.execute, requests_codes_ok]

/-- Claim C2: on a transport-level exception, `execute` returns
`false`, sets the status to the sentinel `-1`, sets the error field to
the stringified exception, leaves the response field cleared, and hands
exactly one request to the transport. -/
theorem execute_transport_failure_contract (s : Server) (endpoint : String)
    (data : Option PostData) (e : String) :
    (s.execute endpoint data (TransportOutcome.exn e)).ret = false
    ∧ (s.execute endpoint data (TransportOutcome.exn e)).state.status = -1
    ∧ (s.execute endpoint data (TransportOutcome.exn e)).state.error = e
    ∧ (s.execute endpoint data (TransportOutcome.exn e)).state.response = none
    ∧ (s.execute endpoint data (TransportOutcome.exn e)).requests.length = 1 :=
  ⟨rfl, rfl, rfl, rfl, rfl⟩

/-- Claim C3, counterexample: passing an empty body mapping yields a
GET, not a POST — the code branches on Python truthiness (`if data:`),
and an empty dict is falsy. -/
theorem execute_empty_mapping_selects_get :
    ((Server.init "u" "t").execute "e" (some [])
        (TransportOutcome.resp ⟨200, ""⟩)).requests.map Request.method
      = [Method.GET]
    ∧ (some ([] : PostData)).isSome = true := by decide

/-- Claim C3, amended: the method is selected by the Python truthiness
of the `data` argument — a POST carrying `data` as its JSON body when a
non-empty mapping is passed, a GET with no body when the argument is
absent or the empty mapping. -/
theorem execute_post_iff_data_truthy (s : Server) (endpoint : String)
    (data : Option PostData) (outcome : TransportOutcome) :
    (s.execute endpoint data outcome).requests.map Request.method
        = [if dataTruthy data then Method.POST else Method.GET]
    ∧ (s.execute endpoint data outcome).requests.map Request.body
        = [if dataTruthy data then data else none] := by
  cases outcome <;> by_cases h : dataTruthy data <;>
    simp [Server.execute, h]

/-- Claim C4, counterexample: a ServerSession whose TLS-verification
flag has been set to `false` still produces a DeviceSession with the
flag `true` — the factory passes only the URL and the token, and the
constructor resets `verify` to its default. -/
theorem device_factory_resets_verify :
    ((((Server.init "u" "t").set_verify false).device "d").fst.verify = true)
    ∧ ((Server.init "u" "t").set_verify false).verify = false := by decide

/-- Claim C4, amended: `device` is a pure factory (a total function
issuing no request): it returns a Device whose base address is the
given URL and whose bearer credential is the ServerSession's, but the
TLS-verification flag is not inherited — it is reset to the constructor
default `true`. -/
theorem device_factory_contract (s : Server) (device_url : String) :
    (s.device device_url).fst.url = device_url
    ∧ (s.device device_url).fst.token = s.token
    ∧ (s.device device_url).fst.verify = true
    ∧ (s.device device_url).fst = Device.init device_url s.token :=
  ⟨rfl, rfl, rfl, rfl⟩

/-- Claim C5, counterexample: a transport exception whose stringified
form is the empty string (e.g. `ConnectionError()`) leaves the session
with status `-1`, an *empty* error field and no response — a state
satisfying none of the three claimed outcome descriptions, so "exactly
one of three holds" fails. -/
theorem tristate_fails_on_empty_exception_message :
    ¬ (transportFailureClaimed
        ((Server.init "u" "t").execute "e" none (TransportOutcome.exn "")).state
      ∨ httpErrorState
        ((Server.init "u" "t").execute "e" none (TransportOutcome.exn "")).state
      ∨ httpSuccessState
        ((Server.init "u" "t").execute "e" none (TransportOutcome.exn "")).state) := by
  simp [transportFailureClaimed, httpErrorState, httpSuccessState,
    Server.execute, Server.init]

/-- Claim C5, amended: after any call to `execute` the status, error
and response fields are freshly determined by that call's transport
outcome alone (status `-1`, error = the stringified exception — which
may be empty — and cleared response on a transport failure; the
response's code, empty error and stored response on a completed
exchange), and exactly one of transport-failure / HTTP-error /
HTTP-success holds, with the transport-failure state no longer
requiring a non-empty error message. -/
theorem execute_outcome_tristate (s : Server) (endpoint : String)
    (data : Option PostData) (outcome : TransportOutcome) :
    (match outcome with
     | TransportOutcome.exn e =>
        (s.execute endpoint data outcome).state.status = -1
        ∧ (s.execute endpoint data outcome).state.error = e
        ∧ (s.execute endpoint data outcome).state.response = none
     | TransportOutcome.resp r =>
        (s.execute endpoint data outcome).state.status = (r.status_code : Int)
        ∧ (s.execute endpoint data outcome).state.error = ""
        ∧ (s.execute endpoint data outcome).state.response = some r)
    ∧ ((transportFailureState (s.execute endpoint data outcome).state
        ∧ ¬ httpErrorState (s.execute endpoint data outcome).state
        ∧ ¬ httpSuccessState (s.execute endpoint data outcome).state)
      ∨ (¬ transportFailureState (s.execute endpoint data outcome).state
        ∧ httpErrorState (s.execute endpoint data outcome).state
        ∧ ¬ httpSuccessState (s.execute endpoint data outcome).state)
      ∨ (¬ transportFailureState (s.execute endpoint data outcome).state
        ∧ ¬ httpErrorState (s.execute endpoint data outcome).state
        ∧ httpSuccessState (s.execute endpoint data outcome).state)) := by
  cases outcome with
  | exn e =>
      simp [Server.execute, transportFailureState, httpErrorState,
        httpSuccessState]
  | resp r =>
      by_cases h : 200 ≤ r.status_code ∧ r.status_code ≤ 299 <;>
        first
        | (simp [Server.execute, transportFailureState, httpErrorState,
            httpSuccessState, h]; omega)
        | simp [Server.execute, transportFailureState, httpErrorState,
            httpSuccessState, h]

/-- Claim C6, counterexample: at verbosity exactly 1 (below 2) the
response status code line is already emitted — the code logs it at
debug level 1, not 2; only the raw body line is gated at level 2. -/
theorem status_code_emitted_at_verbosity_one :
    (((Server.init "u" "t").set_verbose 1).execute "e" none
        (TransportOutcome.resp ⟨404, "body"⟩)).output
      = ["DEBUG1: execute(endpoint=e)", "DEBUG1:   GET: ue",
         "DEBUG1:   Response code 404"]
    ∧ ((Server.init "u" "t").set_verbose 1).verbose = 1
    ∧ ¬ (2 ≤ ((Server.init "u" "t").set_verbose 1).verbose) := by decide

/-- Claim C6, amended: on a completed exchange, when verbosity ≥ 1 the
output is the progress lines (call trace, HTTP method and target URL)
followed by the response status code line — the status code is emitted
at verbosity ≥ 1, not only ≥ 2 — with the raw response body line
appended only when verbosity ≥ 2; when verbosity < 1 nothing is
emitted. -/
theorem execute_verbosity_output (s : Server) (endpoint : String)
    (data : Option PostData) (r : Response) :
    (s.execute endpoint data (TransportOutcome.resp r)).output =
      (if 1 ≤ s.verbose then
        ["DEBUG1: " ++ ("execute(endpoint=" ++ endpoint ++ ")"),
         "DEBUG1: " ++ ((if dataTruthy data then "  POST: " else "  GET: ")
            ++ (s.url ++ endpoint)),
         "DEBUG1: " ++ ("  Response code " ++ toString r.status_code)]
       else [])
      ++ (if 2 ≤ s.verbose then
            ["DEBUG2: " ++ ("  Body:\n" ++ r.content ++ "\n")]
          else []) := by
  have h1 : ∀ t : String,
      "DEBUG" ++ toString (1 : Int) ++ ": " ++ t = "DEBUG1: " ++ t := by
    intro t
    have h : "DEBUG" ++ toString (1 : Int) ++ ": " = "DEBUG1: " := by decide
    rw [show "DEBUG" ++ toString (1 : Int) ++ ": " ++ t
          = ("DEBUG" ++ toString (1 : Int) ++ ": ") ++ t from rfl, h]
  have h2 : ∀ t : String,
      "DEBUG" ++ toString (2 : Int) ++ ": " ++ t = "DEBUG2: " ++ t := by
    intro t
    have h : "DEBUG" ++ toString (2 : Int) ++ ": " = "DEBUG2: " := by decide
    rw [show "DEBUG" ++ toString (2 : Int) ++ ": " ++ t
          = ("DEBUG" ++ toString (2 : Int) ++ ": ") ++ t from rfl, h]
  by_cases hv1 : 1 ≤ s.verbose <;> by_cases hv2 : 2 ≤ s.verbose <;>
    by_cases hd : dataTruthy data <;>
      first
      | (simp [Server.execute, Server.debug, hv1, hv2, hd, h1, h2]; omega)
      | simp [Server.execute, Server.debug, hv1, hv2, hd, h1, h2]

/-- Claim C7: `set_interface_state` POSTs to
`interface/{id}/state/` with the boolean string-mapped to
`{"state": "on"}` / `{"state": "off"}`, while `set_interface_poe_state`
POSTs to `interface/{id}/poe_state/` with `{"poe_state": b}` carrying
the raw boolean — the asymmetric encodings preserved exactly. -/
theorem interface_state_encodings (d : Device) (interface_id : String)
    (b : Bool) (outcome : TransportOutcome) :
    (Device.set_interface_state d interface_id b outcome).requests =
      [{ method := Method.POST,
         url := d.url ++ ("interface/" ++ interface_id ++ "/state/"),
         body := some [("state", JVal.str (if b then "on" else "off"))],
         headers := d.headers, verify := d.verify }]
    ∧ (Device.set_interface_poe_state d interface_id b outcome).requests =
      [{ method := Method.POST,
         url := d.url ++ ("interface/" ++ interface_id ++ "/poe_state/"),
         body := some [("poe_state", JVal.bool b)],
         headers := d.headers, verify := d.verify }] := by
  cases outcome <;> cases b <;>
    simp [Device.set_interface_state, Device.set_interface_poe_state,
      Server.execute, withOut, dataTruthy]

/-- Claim C8: two runs of `execute` on the same endpoint, body and
transport outcome that differ only in the session's verbosity level
return the same boolean, produce the same status, error and response
fields, and hand the same requests to the transport — verbosity is
purely observational. -/
theorem execute_verbosity_noninterference (s : Server) (v₁ v₂ : Int)
    (endpoint : String) (data : Option PostData)
    (outcome : TransportOutcome) :
    ((s.set_verbose v₁).execute endpoint data outcome).ret
        = ((s.set_verbose v₂).execute endpoint data outcome).ret
    ∧ ((s.set_verbose v₁).execute endpoint data outcome).state.status
        = ((s.set_verbose v₂).execute endpoint data outcome).state.status
    ∧ ((s.set_verbose v₁).execute endpoint data outcome).state.error
        = ((s.set_verbose v₂).execute endpoint data outcome).state.error
    ∧ ((s.set_verbose v₁).execute endpoint data outcome).state.response
        = ((s.set_verbose v₂).execute endpoint data outcome).state.response
    ∧ ((s.set_verbose v₁).execute endpoint data outcome).requests
        = ((s.set_verbose v₂).execute endpoint data outcome).requests := by
  cases outcome <;> exact ⟨rfl, rfl, rfl, rfl, rfl⟩

/-- Claim C9: `menu` and `switches` are exact aliases of `devices` —
same resulting state, same return value, same requests, same output —
and `devices` performs a single GET against `api/switches/`. -/
theorem menu_switches_alias_devices (s : Server) (outcome : TransportOutcome) :
    s.menu outcome = s.devices outcome
    ∧ s.switches outcome = s.devices outcome
    ∧ (s.devices outcome).requests.map (fun r => (r.method, r.url))
        = [(Method.GET, s.url ++ "api/switches/")] := by
  refine ⟨rfl, rfl, ?_⟩
  cases outcome <;> simp [Server.devices, Server.execute, withOut, dataTruthy]

/-- Claim C10: each of the four Device write operations — set state,
set PoE state, set description, set VLAN — hands the transport exactly
one request that is a POST carrying a one-field (hence non-empty) body
mapping, for every argument value (false booleans, the empty
description and VLAN id 0 included, since the arguments are universally
quantified). -/
theorem write_operations_always_post (d : Device) (interface_id : String)
    (b c : Bool) (desc : String) (vlan : Int) (outcome : TransportOutcome) :
    (Device.set_interface_state d interface_id b outcome).requests.map
        (fun r => (r.method, r.body.map List.length)) = [(Method.POST, some 1)]
    ∧ (Device.set_interface_poe_state d interface_id c outcome).requests.map
        (fun r => (r.method, r.body.map List.length)) = [(Method.POST, some 1)]
    ∧ (Device.set_interface_description d interface_id desc outcome).requests.map
        (fun r => (r.method, r.body.map List.length)) = [(Method.POST, some 1)]
    ∧ (Device.set_interface_vlan d interface_id vlan outcome).requests.map
        (fun r => (r.method, r.body.map List.length)) = [(Method.POST, some 1)] := by
  cases outcome <;> cases b <;> cases c <;>
    simp [Device.set_interface_state, Device.set_interface_poe_state,
      Device.set_interface_description, Device.set_interface_vlan,
      Server.execute, withOut, dataTruthy]

end OpenL2M
